import Mathlib

/-!
Shallow embedding of the movie state / caching / favorites core of the
`cri-app` repository (Angular + RxJS client application), together with
proofs of the behavioural properties stated in its specification.

Modelling conventions:
* JS `number` values that are used as identifiers, limits or timestamps are
  modelled as `Nat`; fields whose numeric value is never read by any embedded
  operation (ratings, popularity) are modelled as `Int`.
* A JS `Map<string, V>` (which preserves insertion order) is modelled as an
  association list `List (String × V)` with the `Map.get` / `Map.set`
  semantics made explicit (`mapGet`, `mapSet`).
* A JS `Set<string>` is modelled as a `Finset String`.
* RxJS observables returned by the services resolve to exactly one value in
  this code base; a call to an external collaborator (the movie API or
  localStorage) is modelled by passing the outcome of that call as an
  explicit `Except`/`Bool` parameter, and every operation reports in its
  result whether the collaborator was actually consulted.
* `Date.now()` is modelled by an explicit `now : Nat` parameter
  (milliseconds since epoch).
-/

namespace CriApp

/-- The `Movie` interface of `movie.model.ts`.  Rating / popularity numbers
are JS floats; they are inert in every operation modelled here and are
embedded as `Int`. -/
structure Movie where
  adult : Bool
  backdrop_path : Option String
  genres : List String
  id : Nat
  original_language : String
  original_title : String
  overview : String
  popularity : Int
  poster_path : Option String
  release_date : String
  title : String
  video : Bool
  vote_average : Int
  vote_count : Int
  trailerId : Option String := none
  trailerUrl : Option String := none
  trailerSource : Option String := none
deriving DecidableEq

/-- The `EnrichedMovie` interface: a `Movie` plus the user-specific
`isFavorite` flag (`{ ...movie, isFavorite }`). -/
structure EnrichedMovie extends Movie where
  isFavorite : Bool
deriving DecidableEq

/-- The collection kinds accepted by `MovieStateService.getMovies`
(`'top-rated' | 'chronological' | 'all'`). -/
inductive MovieType where
  | topRated
  | chronological
  | all
deriving DecidableEq

/-- The string form of a collection kind, as it appears in cache keys. -/
def MovieType.str : MovieType → String
  | .topRated => "top-rated"
  | .chronological => "chronological"
  | .all => "all"

/-- The `MovieCache` interface: one cached collection with its fetch
timestamp (`lastUpdated`, milliseconds since epoch) and kind tag. -/
structure MovieCache where
  movies : List Movie
  lastUpdated : Nat
  type : MovieType
deriving DecidableEq

/-- `Map.prototype.get`: the value stored under `k`, if any. -/
def mapGet {V : Type} (m : List (String × V)) (k : String) : Option V :=
  (m.find? (fun p => p.1 == k)).map (fun p => p.2)

/-- `Map.prototype.set`: replace the binding of `k` in place if the key is
present (map keys are unique), otherwise append the new binding at the end
(JS maps keep insertion order). -/
def mapSet {V : Type} : List (String × V) → String → V → List (String × V)
  | [], k, v => [(k, v)]
  | p :: rest, k, v =>
      if p.1 == k then (k, v) :: rest else p :: mapSet rest k v

/-- The `MovieStateServiceState` interface: cache map, global loading flag
and global error message. -/
structure MovieStateServiceState where
  cache : List (String × MovieCache)
  loading : Bool
  error : Option String
deriving DecidableEq

namespace MovieStateService

/-- `CACHE_DURATION = 5 * 60 * 1000` (five minutes in milliseconds). -/
def CACHE_DURATION : Nat := 5 * 60 * 1000

/-- The `initialState` of the service: empty cache, not loading, no error. -/
def initialState : MovieStateServiceState :=
  { cache := [], loading := false, error := none }

/-- The cache key `` `${type}-${limit}` `` built by `getMovies`. -/
def cacheKeyOf (type : MovieType) (limit : Nat) : String :=
  type.str ++ "-" ++ toString limit

/-- `getCachedMovies(cacheKey)`: look the key up in the current cache map. -/
def getCachedMovies (st : MovieStateServiceState) (cacheKey : String) :
    Option MovieCache :=
  mapGet st.cache cacheKey

/-- `isCacheValid(cache)`: `Date.now() - cache.lastUpdated < CACHE_DURATION`.
`Nat` subtraction truncates at zero exactly like the JS comparison accepts
any timestamp not yet `CACHE_DURATION` old. -/
def isCacheValid (now : Nat) (cache : MovieCache) : Bool :=
  now - cache.lastUpdated < CACHE_DURATION

/-- `updateMovieCache(cacheKey, movies, type)`: store a fresh cache entry
stamped with the current time. -/
def updateMovieCache (st : MovieStateServiceState) (cacheKey : String)
    (movies : List Movie) (now : Nat) (type : MovieType) :
    MovieStateServiceState :=
  { st with
    cache := mapSet st.cache cacheKey
      (MovieCache.mk movies now type) }

/-- Result of a service operation: the emitted value, the service state
after the operation, and whether the external movie API was invoked. -/
structure FetchResult (α : Type) where
  result : α
  state : MovieStateServiceState
  apiCalled : Bool
deriving DecidableEq

/-- The fetch pipeline of `getMovies` once the cache was found invalid or
absent: `setLoading(true)`, then the API call with its `tap` (cache update,
`setLoading(false)`, `setError(null)`) and `catchError` (loading off, error
set, fall back to the previously captured `cachedData` or `[]`). -/
def fetchMovies (st : MovieStateServiceState) (now : Nat) (type : MovieType)
    (cacheKey : String) (cachedData : Option MovieCache)
    (api : Except String (List Movie)) : FetchResult (List Movie) :=
  let st1 : MovieStateServiceState := { st with loading := true }
  match api with
  | .ok movies =>
      { result := movies
        state :=
          { (updateMovieCache st1 cacheKey movies now type) with
            loading := false
            error := none }
        apiCalled := true }
  | .error _ =>
      { result :=
          match cachedData with
          | some c => c.movies
          | none => []
        state :=
          { st1 with
            loading := false
            error := some "Failed to fetch movies" }
        apiCalled := true }

/-- `getMovies(type, limit)`: serve a valid cache entry without touching the
API, otherwise fetch (the outcome of the routed API call is the `api`
parameter). -/
def getMovies (st : MovieStateServiceState) (now : Nat) (type : MovieType)
    (limit : Nat) (api : Except String (List Movie)) :
    FetchResult (List Movie) :=
  let cacheKey := cacheKeyOf type limit
  match getCachedMovies st cacheKey with
  | some cachedData =>
      if isCacheValid now cachedData then
        { result := cachedData.movies, state := st, apiCalled := false }
      else
        fetchMovies st now type cacheKey (some cachedData) api
  | none => fetchMovies st now type cacheKey none api

/-- The scan of `getMovieById` over `state.cache.values()`: the first movie
with the requested id found in any cache entry, in map order. -/
def findMovieInCaches (cache : List (String × MovieCache)) (id : Nat) :
    Option Movie :=
  match cache with
  | [] => none
  | (_, c) :: rest =>
      match c.movies.find? (fun m => m.id == id) with
      | some movie => some movie
      | none => findMovieInCaches rest id

/-- `getMovieById(id)`: return a movie found in any cache entry (no TTL
check, no state change), otherwise fetch it by id from the API. -/
def getMovieById (st : MovieStateServiceState) (id : Nat)
    (api : Except String (Option Movie)) : FetchResult (Option Movie) :=
  match findMovieInCaches st.cache id with
  | some movie => { result := some movie, state := st, apiCalled := false }
  | none =>
      let st1 : MovieStateServiceState := { st with loading := true }
      match api with
      | .ok m =>
          { result := m
            state := { st1 with loading := false, error := none }
            apiCalled := true }
      | .error _ =>
          { result := none
            state :=
              { st1 with
                loading := false
                error := some "Failed to fetch movie details" }
            apiCalled := true }

/-- `clearCache()`: `updateState({ cache: new Map() })`. -/
def clearCache (st : MovieStateServiceState) : MovieStateServiceState :=
  { st with cache := [] }

/-- Does `hay` start with `need`?  (Character-list form.) -/
def startsWithChars : List Char → List Char → Bool
  | _, [] => true
  | [], _ :: _ => false
  | a :: as, b :: bs => a == b && startsWithChars as bs

/-- `String.prototype.includes`: `need` occurs contiguously in `hay`. -/
def charsIncludes (need : List Char) : List Char → Bool
  | [] => startsWithChars [] need
  | c :: rest => startsWithChars (c :: rest) need || charsIncludes need rest

/-- `a.includes(b)` on strings. -/
def strIncludes (a b : String) : Bool :=
  charsIncludes b.data a.data

/-- `String.prototype.trim` (on the character list): drop leading and
trailing whitespace. -/
def trimChars (l : List Char) : List Char :=
  ((l.dropWhile Char.isWhitespace).reverse.dropWhile Char.isWhitespace).reverse

/-- The deduplication step of `searchMovies`:
`filter((movie, index, self) => self.findIndex(m => m.id === movie.id) === index)`
keeps exactly the first occurrence of each id. -/
def dedupById (l : List Movie) : List Movie :=
  (l.enum.filter (fun p => l.findIdx (fun m => m.id == p.2.id) == p.1)).map
    (fun p => p.2)

/-- Case-insensitive match of `searchMovies`: the lowercased query occurs in
the lowercased title, original title or overview. -/
def movieMatches (lowerQuery : String) (movie : Movie) : Bool :=
  strIncludes movie.title.toLower lowerQuery ||
  strIncludes movie.original_title.toLower lowerQuery ||
  strIncludes movie.overview.toLower lowerQuery

/-- `searchMovies(query, limit)`: empty-after-trim queries short-circuit;
otherwise search the deduplicated union of all cache entries and only go to
the API when the cache yields fewer than `limit` matches. -/
def searchMovies (st : MovieStateServiceState) (query : String) (limit : Nat)
    (api : Except String (List Movie)) : FetchResult (List Movie) :=
  if (trimChars query.data).isEmpty then
    { result := [], state := st, apiCalled := false }
  else
    let allCachedMovies := st.cache.foldl (fun acc p => acc ++ p.2.movies) []
    let uniqueCachedMovies := dedupById allCachedMovies
    let lowerQuery := query.toLower
    let cachedResults := uniqueCachedMovies.filter (movieMatches lowerQuery)
    if limit ≤ cachedResults.length then
      { result := cachedResults.take limit, state := st, apiCalled := false }
    else
      let st1 : MovieStateServiceState := { st with loading := true }
      match api with
      | .ok movies =>
          { result := movies
            state := { st1 with loading := false, error := none }
            apiCalled := true }
      | .error _ =>
          { result := cachedResults.take limit
            state :=
              { st1 with
                loading := false
                error := some "Failed to search movies" }
            apiCalled := true }

end MovieStateService

/-- The `FavoritesState` interface of `app-state.model.ts`: set of favorite
movie ids in canonical string form, loading flag, optional error. -/
structure FavoritesState where
  favoriteIds : Finset String
  loading : Bool
  error : Option String
deriving DecidableEq

namespace MovieFavoritesService

/-- The `initialState` of the favorites service. -/
def initialState : FavoritesState :=
  { favoriteIds := ∅, loading := false, error := none }

/-- `isFavoriteSync(movieId)`: membership of the stringified id in the
current in-memory set, no I/O. -/
def isFavoriteSync (st : FavoritesState) (movieId : Nat) : Bool :=
  decide (toString movieId ∈ st.favoriteIds)

/-- `Array.from(favoriteIds)`.  JS enumerates a `Set` in insertion order;
the embedding enumerates the `Finset` in a canonical order — none of the
embedded operations depends on the enumeration order. -/
def favoriteArrayOf (s : Finset String) : List String :=
  s.sort (fun a b => a ≤ b)

/-- `saveFavorites()`: persist `Array.from(favoriteIds)` under the storage
key.  `writeOk` is the outcome of the localStorage write; a failed write
leaves the persisted value unchanged and only sets the error field
(`catchError` branch).  The second component is the persisted value after
the call. -/
def saveFavorites (st : FavoritesState) (store : Option (List String))
    (writeOk : Bool) : FavoritesState × Option (List String) :=
  let favoriteArray := favoriteArrayOf st.favoriteIds
  if writeOk then
    (st, some favoriteArray)
  else
    ({ st with error := some "Failed to save favorites" }, store)

/-- `addFavorite(movieId)`: if the id is absent, install a new set with it
added and immediately persist. -/
def addFavorite (movieId : Nat) (st : FavoritesState)
    (store : Option (List String)) (writeOk : Bool) :
    FavoritesState × Option (List String) :=
  let movieIdString := toString movieId
  if movieIdString ∈ st.favoriteIds then
    (st, store)
  else
    saveFavorites { st with favoriteIds := insert movieIdString st.favoriteIds }
      store writeOk

/-- `removeFavorite(movieId)`: if the id is present, install a new set with
it removed and immediately persist. -/
def removeFavorite (movieId : Nat) (st : FavoritesState)
    (store : Option (List String)) (writeOk : Bool) :
    FavoritesState × Option (List String) :=
  let movieIdString := toString movieId
  if movieIdString ∈ st.favoriteIds then
    saveFavorites { st with favoriteIds := st.favoriteIds.erase movieIdString }
      store writeOk
  else
    (st, store)

/-- `toggleFavorite(movieId)`: remove when present, add when absent. -/
def toggleFavorite (movieId : Nat) (st : FavoritesState)
    (store : Option (List String)) (writeOk : Bool) :
    FavoritesState × Option (List String) :=
  if isFavoriteSync st movieId then
    removeFavorite movieId st store writeOk
  else
    addFavorite movieId st store writeOk

/-- `loadFavorites()`: `setLoading(true)`, then handle the localStorage read
outcome — existing array replaces the set and clears loading/error, a
missing value (`null`) only clears loading, a read failure clears loading
and sets the error message. -/
def loadFavorites (st : FavoritesState)
    (stored : Except Unit (Option (List String))) : FavoritesState :=
  let st1 : FavoritesState := { st with loading := true }
  match stored with
  | .ok (some favoriteArray) =>
      { st1 with
        favoriteIds := favoriteArray.toFinset
        loading := false
        error := none }
  | .ok none => { st1 with loading := false }
  | .error _ =>
      { st1 with
        loading := false
        error := some "Failed to load favorites" }

/-- The constructor of `MovieFavoritesService`: start from the initial state
and load the persisted favorites. -/
def newService (stored : Except Unit (Option (List String))) : FavoritesState :=
  loadFavorites initialState stored

/-- `parseInt(s, 10)`: optional sign after leading whitespace, then a
leading run of decimal digits; `none` models `NaN`. -/
def parseInt10 (s : String) : Option Int :=
  let digitsVal : List Char → Option Nat := fun l =>
    let ds := l.takeWhile Char.isDigit
    if ds.isEmpty then none
    else some (ds.foldl (fun n c => n * 10 + (c.toNat - 48)) 0)
  match s.data.dropWhile Char.isWhitespace with
  | '-' :: rest => (digitsVal rest).map (fun n => -(n : Int))
  | '+' :: rest => (digitsVal rest).map (fun n => (n : Int))
  | rest => (digitsVal rest).map (fun n => (n : Int))

/-- `getFavorites()`: the stored string ids parsed back to numbers
(`favoriteStrings.map(id => parseInt(id, 10))`); a `none` entry models a
`NaN` produced by an unparsable stored string. -/
def getFavorites (st : FavoritesState) : List (Option Int) :=
  (favoriteArrayOf st.favoriteIds).map parseInt10

end MovieFavoritesService

namespace MovieDataService

open MovieStateService MovieFavoritesService

/-- `enrichMoviesWithFavoriteStatus(movies)`: attach
`isFavorite = favoriteIds.has(movie.id.toString())` to every movie. -/
def enrichMoviesWithFavoriteStatus (fav : FavoritesState)
    (movies : List Movie) : List EnrichedMovie :=
  if movies.isEmpty then []
  else
    movies.map (fun movie =>
      { toMovie := movie
        isFavorite := decide (toString movie.id ∈ fav.favoriteIds) })

/-- The decade key `movie.release_date.substring(0, 3) + '0s'`. -/
def decadeOf (movie : EnrichedMovie) : String :=
  movie.release_date.take 3 ++ "0s"

/-- One step of the grouping loop: push the movie onto the group stored
under `key`, creating the group if needed (JS object string keys preserve
insertion order). -/
def groupInsert (groups : List (String × List EnrichedMovie)) (key : String)
    (movie : EnrichedMovie) : List (String × List EnrichedMovie) :=
  if groups.any (fun p => p.1 == key) then
    groups.map (fun p => if p.1 == key then (p.1, p.2 ++ [movie]) else p)
  else
    groups ++ [(key, [movie])]

/-- The `enrichedMovies.forEach` grouping loop of `getMoviesByDecades`. -/
def groupByDecade (movies : List EnrichedMovie) :
    List (String × List EnrichedMovie) :=
  movies.foldl (fun groups movie => groupInsert groups (decadeOf movie) movie) []

/-- Numeric key of a release date: the decimal value of its digit
characters.  For valid ISO `YYYY-MM-DD` strings this is
`year*10^4 + month*10^2 + day`, which orders dates exactly like
`new Date(s).getTime()`, the quantity the source comparator subtracts. -/
def dateVal (s : String) : Nat :=
  (s.data.filter Char.isDigit).foldl (fun n c => n * 10 + (c.toNat - 48)) 0

/-- The sort order `(a, b) => new Date(a.release_date).getTime() -
new Date(b.release_date).getTime()` of `getMoviesByDecades`. -/
def dateLe (a b : EnrichedMovie) : Prop :=
  dateVal a.release_date ≤ dateVal b.release_date

instance : DecidableRel dateLe := fun a b =>
  inferInstanceAs (Decidable (dateVal a.release_date ≤ dateVal b.release_date))

instance : IsTotal EnrichedMovie dateLe :=
  ⟨fun a b => Nat.le_total (dateVal a.release_date) (dateVal b.release_date)⟩

instance : IsTrans EnrichedMovie dateLe :=
  ⟨fun _ _ _ hab hbc => Nat.le_trans hab hbc⟩

/-- The per-decade sort: a stable ascending sort by release date, as
performed by `Array.prototype.sort` with the getTime comparator. -/
def sortByReleaseDate (l : List EnrichedMovie) : List EnrichedMovie :=
  l.insertionSort dateLe

/-- The pure grouping stage of `getMoviesByDecades`: group the enriched
movies by decade key, then sort every group ascending by release date. -/
def decadesGrouping (movies : List EnrichedMovie) :
    List (String × List EnrichedMovie) :=
  (groupByDecade movies).map (fun p => (p.1, sortByReleaseDate p.2))

/-- Result of a facade operation: the emitted value, the coordinator state
afterwards, whether the coordinator (`MovieStateService`) was consulted at
all, and whether the movie API behind it was invoked. -/
structure FacadeResult (α : Type) where
  result : α
  state : MovieStateServiceState
  coordinatorCalled : Bool
  apiCalled : Bool
deriving DecidableEq

/-- `getMoviesByDecades()`: fetch the large top-rated superset through the
coordinator, enrich with favorite status, group by decade and sort each
group by release date. -/
def getMoviesByDecades (fav : FavoritesState) (st : MovieStateServiceState)
    (now : Nat) (api : Except String (List Movie)) :
    FacadeResult (List (String × List EnrichedMovie)) :=
  let fetch := getMovies st now MovieType.topRated 1000 api
  { result := decadesGrouping (enrichMoviesWithFavoriteStatus fav fetch.result)
    state := fetch.state
    coordinatorCalled := true
    apiCalled := fetch.apiCalled }

/-- `getFavoriteMovies()`: an empty favorite-id list short-circuits to an
empty result without consulting the coordinator; otherwise fetch the large
top-rated superset, keep the movies whose id is in the favorite list, and
tag them `isFavorite: true`. -/
def getFavoriteMovies (fav : FavoritesState) (st : MovieStateServiceState)
    (now : Nat) (api : Except String (List Movie)) :
    FacadeResult (List EnrichedMovie) :=
  let favoriteIds := getFavorites fav
  if favoriteIds.length = 0 then
    { result := [], state := st, coordinatorCalled := false, apiCalled := false }
  else
    let fetch := getMovies st now MovieType.topRated 1000 api
    let favoriteMovies :=
      fetch.result.filter (fun movie => favoriteIds.contains (some (movie.id : Int)))
    { result := favoriteMovies.map (fun movie =>
        { toMovie := movie, isFavorite := true })
      state := fetch.state
      coordinatorCalled := true
      apiCalled := fetch.apiCalled }

end MovieDataService

/-! Concrete sample data, used to evaluate the properties on explicit
inputs. -/

/-- A sample movie with the given id, release date and title. -/
def sampleMovie (i : Nat) (d t : String) : Movie :=
  { adult := false
    backdrop_path := none
    genres := []
    id := i
    original_language := "en"
    original_title := t
    overview := "overview"
    popularity := 0
    poster_path := none
    release_date := d
    title := t
    video := false
    vote_average := 0
    vote_count := 0 }

/-- Sample movie released 1994-09-10. -/
def m94 : Movie := sampleMovie 1 "1994-09-10" "A"

/-- Sample movie released 1999-01-01. -/
def m99 : Movie := sampleMovie 2 "1999-01-01" "B"

/-- Sample movie released 2001-03-05. -/
def m01 : Movie := sampleMovie 3 "2001-03-05" "C"

/-- `m94` enriched with `isFavorite = false`. -/
def em94 : EnrichedMovie := { toMovie := m94, isFavorite := false }

/-- `m99` enriched with `isFavorite = false`. -/
def em99 : EnrichedMovie := { toMovie := m99, isFavorite := false }

/-- `m01` enriched with `isFavorite = false`. -/
def em01 : EnrichedMovie := { toMovie := m01, isFavorite := false }

/-- A cache entry fetched at time 0 holding `[m94]`, tagged `top-rated`. -/
def cEntry : MovieCache :=
  { movies := [m94], lastUpdated := 0, type := MovieType.topRated }

/-- A coordinator state whose cache holds `cEntry` under key
`"top-rated-20"`: valid at `now = 1`, expired at
`now = CACHE_DURATION`. -/
def stOne : MovieStateServiceState :=
  { cache := [("top-rated-20", cEntry)], loading := false, error := none }

/-- A coordinator state caching the three sample movies under key
`"top-rated-1000"` (fetched at time 0). -/
def stDecades : MovieStateServiceState :=
  { cache := [("top-rated-1000",
      { movies := [m94, m99, m01], lastUpdated := 0,
        type := MovieType.topRated })]
    loading := false
    error := none }

/-! ## Helper lemmas -/

/-- Looking up a key right after `mapSet` stored a value under it yields
that value. -/
theorem mapGet_mapSet_self {V : Type} (m : List (String × V)) (k : String)
    (v : V) : mapGet (mapSet m k v) k = some v := by
  induction m with
  | nil => simp [mapGet, mapSet]
  | cons p rest ih =>
    by_cases hp : p.1 = k
    · simp [mapGet, mapSet, hp]
    · have hp' : (p.1 == k) = false := beq_eq_false_iff_ne.mpr hp
      simp [mapGet, mapSet, hp', List.find?] at ih ⊢
      exact ih

/-! ## Claims -/

namespace MovieStateService

/-- Dropping leading whitespace from an all-whitespace list leaves
nothing. -/
theorem dropWhile_whitespace_of_all (l : List Char)
    (h : l.all Char.isWhitespace = true) :
    l.dropWhile Char.isWhitespace = [] := by
  induction l with
  | nil => rfl
  | cons c cs ih =>
    rw [List.all_cons, Bool.and_eq_true] at h
    rw [List.dropWhile_cons_of_pos h.1]
    exact ih h.2

/-- A list consisting only of whitespace characters trims to the empty
list. -/
theorem trimChars_of_all_whitespace (l : List Char)
    (h : l.all Char.isWhitespace = true) : trimChars l = [] := by
  simp [trimChars, dropWhile_whitespace_of_all l h]

/-- Claim C10: `clearCache()` replaces the cache map with an empty map and
leaves the loading flag and the error field exactly as they were. -/
theorem clearCache_drops_cache_frames_flags (st : MovieStateServiceState) :
    clearCache st =
      { cache := [], loading := st.loading, error := st.error } :=
  rfl

/-- Claim C9: `getMovieById(id)` returns a movie found in any existing
cache entry — the lookup consults no clock and no TTL, so even a movie
held only by an arbitrarily old entry is served — performs no fetch, and
leaves the whole state (in particular the loading and error flags)
untouched. -/
theorem getMovieById_cached_ignores_ttl (st : MovieStateServiceState)
    (id : Nat) (api : Except String (Option Movie)) (m : Movie)
    (h : findMovieInCaches st.cache id = some m) :
    getMovieById st id api =
      { result := some m, state := st, apiCalled := false } := by
  simp [getMovieById, h]

/-- Witness for claim C9: the only entry of `stOne` is already expired at
`now = CACHE_DURATION`, yet `getMovieById` still serves `m94` from it,
without any fetch and without touching the state. -/
theorem getMovieById_cached_ignores_ttl_witness :
    findMovieInCaches stOne.cache 1 = some m94 ∧
    isCacheValid CACHE_DURATION cEntry = false ∧
    getMovieById stOne 1 (.error "down") =
      { result := some m94, state := stOne, apiCalled := false } :=
  ⟨by decide, by decide,
    getMovieById_cached_ignores_ttl stOne 1 (.error "down") m94 (by decide)⟩

/-- Claim C2: when the guard of `getMovies` finds no valid cache entry and
the Movie Source call fails, `getMovies` turns loading off, sets the error
message, and emits the previously stored entry's movies when one exists
(even if stale) and the empty list otherwise; being a total function into
`FetchResult`, it never propagates the failure as an exception. -/
theorem getMovies_failure_degrades (st : MovieStateServiceState) (now : Nat)
    (type : MovieType) (limit : Nat) (e : String)
    (h : (getCachedMovies st (cacheKeyOf type limit)).elim true
      (fun c => !isCacheValid now c) = true) :
    getMovies st now type limit (.error e) =
      { result := (getCachedMovies st (cacheKeyOf type limit)).elim []
          MovieCache.movies
        state := { cache := st.cache, loading := false,
                   error := some "Failed to fetch movies" }
        apiCalled := true } := by
  cases hget : getCachedMovies st (cacheKeyOf type limit) with
  | none => simp [getMovies, hget, fetchMovies]
  | some c =>
    rw [hget] at h
    simp only [Option.elim, Bool.not_eq_true'] at h
    simp [getMovies, hget, h, fetchMovies]

/-- Witness for claim C2: on the empty initial state (no entry for the
key), a failing fetch yields the empty list, loading off and the error
set. -/
theorem getMovies_failure_degrades_witness :
    (getCachedMovies initialState (cacheKeyOf MovieType.topRated 20)).elim
      true (fun c => !isCacheValid 0 c) = true ∧
    getMovies initialState 0 MovieType.topRated 20 (.error "down") =
      { result := (getCachedMovies initialState
          (cacheKeyOf MovieType.topRated 20)).elim [] MovieCache.movies
        state := { cache := [], loading := false,
                   error := some "Failed to fetch movies" }
        apiCalled := true } :=
  ⟨by decide, getMovies_failure_degrades initialState 0 MovieType.topRated 20
    "down" (by decide)⟩

/-- Counterexample to claim C6 as stated: in `stOne` the entry for key
`"top-rated-20"` is valid at `now = 1`, and with a failing Movie Source
`getMovies` does return the cached list — but it never invokes the Movie
Source and leaves the error field at `none` instead of setting it, because
a valid entry short-circuits the call before any fetch can fail. -/
theorem getMovies_validEntry_failure_counterexample :
    getCachedMovies stOne (cacheKeyOf MovieType.topRated 20) = some cEntry ∧
    isCacheValid 1 cEntry = true ∧
    getMovies stOne 1 MovieType.topRated 20 (.error "down") =
      { result := cEntry.movies, state := stOne, apiCalled := false } ∧
    (getMovies stOne 1 MovieType.topRated 20 (.error "down")).state.error
      = none := by
  refine ⟨by decide, by decide, by decide, by decide⟩

/-- Claim C6 (amended): when the Movie Source call made by `getMovies`
fails and a cache entry exists for the same key — necessarily expired,
since a valid entry suppresses the fetch — `getMovies` returns the
previously cached list, not an empty list, and sets the error field. -/
theorem getMovies_staleEntry_failure (st : MovieStateServiceState)
    (now : Nat) (type : MovieType) (limit : Nat) (e : String) (c : MovieCache)
    (hget : getCachedMovies st (cacheKeyOf type limit) = some c)
    (hstale : isCacheValid now c = false) :
    getMovies st now type limit (.error e) =
      { result := c.movies
        state := { cache := st.cache, loading := false,
                   error := some "Failed to fetch movies" }
        apiCalled := true } := by
  simp [getMovies, hget, hstale, fetchMovies]

/-- Witness for claim C6 (amended): at `now = CACHE_DURATION` the entry of
`stOne` is expired; the failing fetch emits the stale cached list with the
error field set. -/
theorem getMovies_staleEntry_failure_witness :
    getCachedMovies stOne (cacheKeyOf MovieType.topRated 20) = some cEntry ∧
    isCacheValid CACHE_DURATION cEntry = false ∧
    getMovies stOne CACHE_DURATION MovieType.topRated 20 (.error "down") =
      { result := cEntry.movies
        state := { cache := stOne.cache, loading := false,
                   error := some "Failed to fetch movies" }
        apiCalled := true } :=
  ⟨by decide, by decide,
    getMovies_staleEntry_failure stOne CACHE_DURATION MovieType.topRated 20
      "down" cEntry (by decide) (by decide)⟩

/-- Claim C8: a query consisting only of whitespace characters (including
the empty query) makes `searchMovies` return the empty list without
contacting the Movie Source and without touching the state. -/
theorem searchMovies_whitespace_no_fetch (st : MovieStateServiceState)
    (query : String) (limit : Nat) (api : Except String (List Movie))
    (h : query.data.all Char.isWhitespace = true) :
    searchMovies st query limit api =
      { result := [], state := st, apiCalled := false } := by
  simp [searchMovies, trimChars_of_all_whitespace query.data h]

/-- Witness for claim C8: a space-and-tab query is rejected without any
fetch. -/
theorem searchMovies_whitespace_no_fetch_witness :
    (" \t ".data.all Char.isWhitespace = true) ∧
    searchMovies stOne " \t " 50 (.error "down") =
      { result := [], state := stOne, apiCalled := false } :=
  ⟨by decide,
    searchMovies_whitespace_no_fetch stOne " \t " 50 (.error "down")
      (by decide)⟩

/-- Claim C1: a cache entry for the key of `(type, limit)` whose age is
strictly below the 5-minute TTL makes `getMovies` return that entry's
movies with no Movie Source invocation and no state change; consequently
two `getMovies` calls with the same kind and limit within one TTL window
(the first one backed by a successful fetch when it does fetch) invoke the
Movie Source at most once. -/
theorem getMovies_cache_hit_single_fetch :
    (∀ (st : MovieStateServiceState) (now : Nat) (type : MovieType)
       (limit : Nat) (api : Except String (List Movie)) (c : MovieCache),
       getCachedMovies st (cacheKeyOf type limit) = some c →
       isCacheValid now c = true →
       getMovies st now type limit api =
         { result := c.movies, state := st, apiCalled := false }) ∧
    (∀ (st : MovieStateServiceState) (now1 now2 : Nat) (type : MovieType)
       (limit : Nat) (movies1 : List Movie)
       (api2 : Except String (List Movie)),
       now2 - now1 < CACHE_DURATION →
       (getMovies st now1 type limit (.ok movies1)).apiCalled = false ∨
       (getMovies (getMovies st now1 type limit (.ok movies1)).state now2
          type limit api2).apiCalled = false) := by
  constructor
  · intro st now type limit api c hget hvalid
    simp [getMovies, hget, hvalid]
  · intro st now1 now2 type limit movies1 api2 h
    by_cases hhit : ∃ c, getCachedMovies st (cacheKeyOf type limit) = some c
        ∧ isCacheValid now1 c = true
    · obtain ⟨c, hget, hv⟩ := hhit
      left
      simp [getMovies, hget, hv]
    · right
      have hstate : (getMovies st now1 type limit (.ok movies1)).state.cache =
          mapSet st.cache (cacheKeyOf type limit)
            { movies := movies1, lastUpdated := now1, type := type } := by
        cases hget : getCachedMovies st (cacheKeyOf type limit) with
        | none => simp [getMovies, hget, fetchMovies, updateMovieCache]
        | some c =>
          cases hb : isCacheValid now1 c with
          | true => exact absurd ⟨c, hget, hb⟩ hhit
          | false =>
            simp [getMovies, hget, hb, fetchMovies, updateMovieCache]
      set st2 := (getMovies st now1 type limit (.ok movies1)).state with hst2
      have hget2 : getCachedMovies st2 (cacheKeyOf type limit) =
          some { movies := movies1, lastUpdated := now1, type := type } := by
        rw [getCachedMovies, hstate, mapGet_mapSet_self]
      have hv2 : isCacheValid now2
          { movies := movies1, lastUpdated := now1, type := type } = true := by
        simpa [isCacheValid] using h
      simp [getMovies, hget2, hv2]

/-- Witness for claim C1: at `now = 1` the entry of `stOne` is valid, so a
call whose Movie Source would fail never reaches it; and on the empty
initial state a successful fetch at `now1 = 1` followed by a second call at
`now2 = 2` triggers no second invocation. -/
theorem getMovies_cache_hit_single_fetch_witness :
    getCachedMovies stOne (cacheKeyOf MovieType.topRated 20) = some cEntry ∧
    isCacheValid 1 cEntry = true ∧
    getMovies stOne 1 MovieType.topRated 20 (.error "down") =
      { result := cEntry.movies, state := stOne, apiCalled := false } ∧
    (2 - 1 < CACHE_DURATION) ∧
    ((getMovies initialState 1 MovieType.topRated 20
        (.ok [m94])).apiCalled = false ∨
      (getMovies (getMovies initialState 1 MovieType.topRated 20
          (.ok [m94])).state 2 MovieType.topRated 20
        (.error "down")).apiCalled = false) :=
  ⟨by decide, by decide,
    getMovies_cache_hit_single_fetch.1 stOne 1 MovieType.topRated 20
      (.error "down") cEntry (by decide) (by decide),
    by decide,
    getMovies_cache_hit_single_fetch.2 initialState 1 2 MovieType.topRated 20
      [m94] (.error "down") (by decide)⟩

end MovieStateService

namespace MovieFavoritesService

/-- Persisting never changes the in-memory favorite set: a failed write
only touches the error field. -/
theorem saveFavorites_favoriteIds (st : FavoritesState)
    (store : Option (List String)) (writeOk : Bool) :
    ((saveFavorites st store writeOk).1).favoriteIds = st.favoriteIds := by
  cases writeOk <;> rfl

/-- One toggle flips the synchronous favorite check for the toggled id. -/
theorem isFavoriteSync_toggleFavorite (movieId : Nat) (st : FavoritesState)
    (store : Option (List String)) (writeOk : Bool) :
    isFavoriteSync (toggleFavorite movieId st store writeOk).1 movieId =
      !(isFavoriteSync st movieId) := by
  by_cases h : toString movieId ∈ st.favoriteIds
  · cases writeOk <;>
      simp [toggleFavorite, isFavoriteSync, removeFavorite, h, saveFavorites]
  · cases writeOk <;>
      simp [toggleFavorite, isFavoriteSync, addFavorite, h, saveFavorites]

/-- Claim C3: `toggleFavorite(id)` flips the value `isFavoriteSync(id)`
returned immediately before the toggle, and is its own inverse: toggling
twice (threading the persisted store through) restores the original
`isFavoriteSync(id)` value, whatever state the store is in and whether or
not the persistence writes succeed. -/
theorem toggleFavorite_involutive :
    (∀ (movieId : Nat) (st : FavoritesState) (store : Option (List String))
       (writeOk : Bool),
       isFavoriteSync (toggleFavorite movieId st store writeOk).1 movieId =
         !(isFavoriteSync st movieId)) ∧
    (∀ (movieId : Nat) (st : FavoritesState) (store : Option (List String))
       (writeOk writeOk2 : Bool),
       isFavoriteSync
         (toggleFavorite movieId (toggleFavorite movieId st store writeOk).1
           (toggleFavorite movieId st store writeOk).2 writeOk2).1 movieId =
         isFavoriteSync st movieId) :=
  ⟨fun movieId st store writeOk =>
      isFavoriteSync_toggleFavorite movieId st store writeOk,
   fun movieId st store writeOk writeOk2 => by
      rw [isFavoriteSync_toggleFavorite, isFavoriteSync_toggleFavorite,
        Bool.not_not]⟩

/-- Claim C4: when `toggleFavorite(id)` adds `id` and the persistence write
succeeds, a fresh service instance constructed over the same persisted
store loads the saved list and reports `isFavoriteSync(id) = true`. -/
theorem toggleFavorite_persistence_roundtrip (movieId : Nat)
    (st : FavoritesState) (store : Option (List String))
    (h : isFavoriteSync st movieId = false) :
    isFavoriteSync
      (newService (.ok (toggleFavorite movieId st store true).2)) movieId
      = true := by
  have hmem : toString movieId ∉ st.favoriteIds := by
    simpa [isFavoriteSync] using h
  have hsnd : (toggleFavorite movieId st store true).2 =
      some (favoriteArrayOf (insert (toString movieId) st.favoriteIds)) := by
    simp [toggleFavorite, isFavoriteSync, hmem, addFavorite, saveFavorites]
  rw [hsnd]
  simp [newService, loadFavorites, isFavoriteSync, favoriteArrayOf,
    List.mem_toFinset, Finset.mem_sort]

/-- Witness for claim C4: id 7 is not a favorite of the initial state;
after the toggle a fresh instance over the persisted store reports it as
favorite. -/
theorem toggleFavorite_persistence_roundtrip_witness :
    isFavoriteSync initialState 7 = false ∧
    isFavoriteSync
      (newService (.ok (toggleFavorite 7 initialState none true).2)) 7
      = true :=
  ⟨by decide, toggleFavorite_persistence_roundtrip 7 initialState none
    (by decide)⟩

end MovieFavoritesService

namespace MovieDataService

open MovieStateService MovieFavoritesService

/-- Claim C7: with an empty favorite-id set, `getFavoriteMovies` returns
the empty list immediately: the coordinator is not consulted, hence the
Movie Source is not invoked, and the coordinator state is untouched. -/
theorem getFavoriteMovies_empty_no_coordinator (fav : FavoritesState)
    (st : MovieStateServiceState) (now : Nat)
    (api : Except String (List Movie)) (h : fav.favoriteIds = ∅) :
    getFavoriteMovies fav st now api =
      { result := [], state := st, coordinatorCalled := false,
        apiCalled := false } := by
  simp [getFavoriteMovies, getFavorites, favoriteArrayOf, h]

/-- Witness for claim C7: the initial favorites state has an empty set, and
`getFavoriteMovies` short-circuits even though the coordinator state owns a
cache entry and the Movie Source would fail. -/
theorem getFavoriteMovies_empty_no_coordinator_witness :
    MovieFavoritesService.initialState.favoriteIds = ∅ ∧
    getFavoriteMovies MovieFavoritesService.initialState stOne 1
      (.error "down") =
      { result := [], state := stOne, coordinatorCalled := false,
        apiCalled := false } :=
  ⟨rfl, getFavoriteMovies_empty_no_coordinator
    MovieFavoritesService.initialState stOne 1 (.error "down") rfl⟩

/-- Sorting a group by release date does not change its members. -/
theorem mem_sortByReleaseDate (a : EnrichedMovie) (l : List EnrichedMovie) :
    a ∈ sortByReleaseDate l ↔ a ∈ l :=
  (List.perm_insertionSort dateLe l).mem_iff

/-- Sorting a group by release date sorts it ascending by release date. -/
theorem sorted_sortByReleaseDate (l : List EnrichedMovie) :
    List.Sorted dateLe (sortByReleaseDate l) :=
  List.sorted_insertionSort dateLe l

/-- `groupInsert` preserves the invariant that every group holds only
movies of its own decade key, when the inserted movie belongs to the key it
is inserted under. -/
theorem groupInsert_key_sound (groups : List (String × List EnrichedMovie))
    (key : String) (x : EnrichedMovie) (hx : decadeOf x = key)
    (h : ∀ p ∈ groups, ∀ m ∈ p.2, decadeOf m = p.1) :
    ∀ p ∈ groupInsert groups key x, ∀ m ∈ p.2, decadeOf m = p.1 := by
  intro p hp m hm
  unfold groupInsert at hp
  by_cases hany : groups.any (fun q => q.1 == key)
  · rw [if_pos hany] at hp
    obtain ⟨q, hq, hpq⟩ := List.mem_map.mp hp
    by_cases hkq : (q.1 == key) = true
    · rw [if_pos hkq] at hpq
      subst hpq
      rcases List.mem_append.mp hm with hmq | hmx
      · exact h q hq m hmq
      · rw [List.mem_singleton.mp hmx, hx]
        exact (eq_of_beq hkq).symm
    · rw [if_neg (by simpa using hkq)] at hpq
      subst hpq
      exact h q hq m hm
  · rw [if_neg hany] at hp
    rcases List.mem_append.mp hp with hpg | hpnew
    · exact h p hpg m hm
    · rw [List.mem_singleton.mp hpnew] at hm ⊢
      rw [List.mem_singleton.mp hm, hx]

/-- `groupInsert` never loses a movie already filed in some group. -/
theorem groupInsert_mem_mono (groups : List (String × List EnrichedMovie))
    (key : String) (x : EnrichedMovie) (k0 : String) (m0 : EnrichedMovie)
    (h : ∃ g, (k0, g) ∈ groups ∧ m0 ∈ g) :
    ∃ g, (k0, g) ∈ groupInsert groups key x ∧ m0 ∈ g := by
  obtain ⟨g, hg, hm⟩ := h
  unfold groupInsert
  by_cases hany : groups.any (fun q => q.1 == key)
  · rw [if_pos hany]
    by_cases hkg : ((k0 : String) == key) = true
    · refine ⟨g ++ [x], ?_, List.mem_append_left _ hm⟩
      have hmap := List.mem_map_of_mem
        (fun p => if p.1 == key then (p.1, p.2 ++ [x]) else p) hg
      simpa [hkg] using hmap
    · refine ⟨g, ?_, hm⟩
      have hkg' : ((k0 : String) == key) = false := by simpa using hkg
      have hmap := List.mem_map_of_mem
        (fun p => if p.1 == key then (p.1, p.2 ++ [x]) else p) hg
      simpa [hkg'] using hmap
  · rw [if_neg hany]
    exact ⟨g, List.mem_append_left _ hg, hm⟩

/-- The movie just inserted by `groupInsert` is filed under its key. -/
theorem groupInsert_mem_new (groups : List (String × List EnrichedMovie))
    (key : String) (x : EnrichedMovie) :
    ∃ g, (key, g) ∈ groupInsert groups key x ∧ x ∈ g := by
  unfold groupInsert
  by_cases hany : groups.any (fun q => q.1 == key)
  · rw [if_pos hany]
    obtain ⟨q, hq, hqk⟩ := List.any_eq_true.mp hany
    refine ⟨q.2 ++ [x], ?_, List.mem_append_right _ (by simp)⟩
    have hq1 : q.1 = key := eq_of_beq hqk
    have hmap := List.mem_map_of_mem
      (fun p => if p.1 == key then (p.1, p.2 ++ [x]) else p) hq
    simpa [hqk, hq1] using hmap
  · rw [if_neg hany]
    exact ⟨[x], List.mem_append_right _ (by simp), by simp⟩

/-- Every group produced by the grouping loop holds only movies of its own
decade key (invariant carried through the fold). -/
theorem groupByDecade_foldl_key_sound (movies : List EnrichedMovie) :
    ∀ acc, (∀ p ∈ acc, ∀ m ∈ p.2, decadeOf m = p.1) →
      ∀ p ∈ movies.foldl
        (fun groups movie => groupInsert groups (decadeOf movie) movie) acc,
        ∀ m ∈ p.2, decadeOf m = p.1 := by
  induction movies with
  | nil => intro acc hacc; exact hacc
  | cons x xs ih =>
    intro acc hacc
    exact ih (groupInsert acc (decadeOf x) x)
      (groupInsert_key_sound acc (decadeOf x) x rfl hacc)

/-- Every movie fed to the grouping loop ends up in the group filed under
its decade key. -/
theorem groupByDecade_foldl_mem (movies : List EnrichedMovie)
    (m : EnrichedMovie) :
    ∀ acc, (m ∈ movies ∨ ∃ g, (decadeOf m, g) ∈ acc ∧ m ∈ g) →
      ∃ g, (decadeOf m, g) ∈ movies.foldl
        (fun groups movie => groupInsert groups (decadeOf movie) movie) acc ∧
        m ∈ g := by
  induction movies with
  | nil =>
    intro acc h
    exact h.resolve_left (by simp)
  | cons x xs ih =>
    intro acc h
    refine ih (groupInsert acc (decadeOf x) x) ?_
    rcases h with hmem | hacc
    · rcases List.mem_cons.mp hmem with rfl | hxs
      · exact Or.inr (groupInsert_mem_new acc (decadeOf m) m)
      · exact Or.inl hxs
    · exact Or.inr (groupInsert_mem_mono acc (decadeOf x) x _ m hacc)

/-- Claim C5: `getMoviesByDecades` groups every enriched movie under the
key formed by the first three characters of its release date followed by
`"0s"`, each produced group holds only movies of its own key and is sorted
ascending by release date; on the concrete inputs with release dates
1994-09-10, 1999-01-01 and 2001-03-05, the result maps `"1990s"` to the
two 1990s movies sorted ascending and `"2000s"` to the 2001 movie. -/
theorem getMoviesByDecades_groups_and_sorts :
    (∀ (fav : FavoritesState) (st : MovieStateServiceState) (now : Nat)
       (api : Except String (List Movie)) (k : String)
       (g : List EnrichedMovie),
       (k, g) ∈ (getMoviesByDecades fav st now api).result →
       List.Sorted dateLe g ∧ ∀ m ∈ g, decadeOf m = k) ∧
    (∀ (fav : FavoritesState) (st : MovieStateServiceState) (now : Nat)
       (api : Except String (List Movie)) (m : EnrichedMovie),
       m ∈ enrichMoviesWithFavoriteStatus fav
         (getMovies st now MovieType.topRated 1000 api).result →
       ∃ g, (decadeOf m, g) ∈ (getMoviesByDecades fav st now api).result ∧
         m ∈ g) ∧
    (getMoviesByDecades MovieFavoritesService.initialState stDecades 1
        (.error "down")).result =
      [("1990s", [em94, em99]), ("2000s", [em01])] := by
  refine ⟨?_, ?_, by decide⟩
  · intro fav st now api k g hkg
    have hkg' : (k, g) ∈ (groupByDecade (enrichMoviesWithFavoriteStatus fav
        (getMovies st now MovieType.topRated 1000 api).result)).map
        (fun p => (p.1, sortByReleaseDate p.2)) := hkg
    obtain ⟨q, hq, hpq⟩ := List.mem_map.mp hkg'
    have hk : q.1 = k := congrArg Prod.fst hpq
    have hg : sortByReleaseDate q.2 = g := congrArg Prod.snd hpq
    refine ⟨hg ▸ sorted_sortByReleaseDate q.2, ?_⟩
    intro m hm
    rw [← hg] at hm
    rw [← hk]
    exact groupByDecade_foldl_key_sound _ [] (by simp) q hq m
      ((mem_sortByReleaseDate m q.2).mp hm)
  · intro fav st now api m hm
    obtain ⟨g0, hg0, hm0⟩ :=
      groupByDecade_foldl_mem _ m [] (Or.inl hm)
    refine ⟨sortByReleaseDate g0, ?_, (mem_sortByReleaseDate m g0).mpr hm0⟩
    exact List.mem_map_of_mem (fun p => (p.1, sortByReleaseDate p.2)) hg0

/-- Witness for claim C5: in the concrete run over `stDecades`, the
`"1990s"` group is present and the theorem yields its sortedness and key
soundness. -/
theorem getMoviesByDecades_groups_and_sorts_witness :
    ("1990s", [em94, em99]) ∈
      (getMoviesByDecades MovieFavoritesService.initialState stDecades 1
        (.error "down")).result ∧
    (List.Sorted dateLe [em94, em99] ∧
      ∀ m ∈ [em94, em99], decadeOf m = "1990s") :=
  ⟨by decide,
    getMoviesByDecades_groups_and_sorts.1 MovieFavoritesService.initialState
      stDecades 1 (.error "down") "1990s" [em94, em99] (by decide)⟩

end MovieDataService

end CriApp
